import Mathlib

set_option maxRecDepth 8000

/-!
Shallow embedding of `pyappsflyer/api.py`: the three report families
(`PerformanceReport`, `RawDataReport`, `TargetingValidationRulesReport`),
their request assembly and report iteration, together with models of the
pieces of the shared `BaseAppsFlyer` capability that `api.py` calls but
whose code is not part of this repository snapshot.

Dates are modelled as day numbers (`Nat`); a request-parameter value is
either a string or a date.  A "result entry" `{name: result}` produced by
`get_reports` is modelled as a pair of the entry key and the `Request`
that the fetch for that entry issues (the HTTP transport and the CSV body
are outside the modelled boundary; the CSV decoding itself is modelled
separately as `parse_csv`).
-/

/-- A value occurring in the `request_args` dictionary: either a plain
string or a date (modelled as a day number). -/
inductive Val where
  | str : String → Val
  | date : Nat → Val
deriving DecidableEq, Repr

/-- The request a single `_get_report` call issues: the validated report
name together with the assembled `request_args` dictionary, kept as an
association list in Python dict insertion order. -/
structure Request where
  reportName : String
  requestArgs : List (String × Val)
deriving DecidableEq, Repr

/-- The only error the modelled layer raises. -/
inductive ApiError where
  | validationError
deriving DecidableEq, Repr

/-- Modelled from the spec: the configured lookback environment used by
`BaseAppsFlyer.get_default_dates` (not under `src/`): the current day and
the default number of days to look back. -/
structure Env where
  today : Nat
  lookbackDays : Nat
deriving DecidableEq, Repr

/-- Modelled from the spec: `BaseAppsFlyer.get_default_dates` (not under
`src/`) returns an end date equal to today and a start date equal to
today minus the configured number of days, as the pair
`(from_date, to_date)`. -/
def get_default_dates (env : Env) : Nat × Nat :=
  (env.today - env.lookbackDays, env.today)

/-- Modelled from the spec: `DEFAULT_TIMEZONE` from `pyappsflyer.settings`
(not under `src/`); the docstrings state the default is Europe/Moscow. -/
def DEFAULT_TIMEZONE : String := "Europe/Moscow"

/-- Modelled from the spec: `BaseAppsFlyer.do_reports_exclusion` (not
under `src/`) derives the filtered name list by subtraction of the
caller-supplied exclusion list from the given name list. -/
def do_reports_exclusion (names : List String) (exclude : List String) : List String :=
  names.filter (fun n => ¬ n ∈ exclude)

/-- Modelled from the spec: `BaseAppsFlyer.validate_dates_and_report_names`
(not under `src/`) raises `ValidationError` before any network call when
the requested report name is outside the allowed set, or when exactly one
of `from_date`/`to_date` is supplied. -/
def validate_dates_and_report_names (api_report_name : String)
    (report_names : List String) (from_date to_date : Option Nat) :
    Except ApiError Unit :=
  if ¬ api_report_name ∈ report_names then .error .validationError
  else if ¬ from_date.isSome = to_date.isSome then .error .validationError
  else .ok ()

/-- The date pair actually placed in `request_args`: the caller's dates
when both are present, otherwise (`if not from_date or not to_date`) the
default pair from `get_default_dates`. -/
def resolve_dates (env : Env) (from_date to_date : Option Nat) : Nat × Nat :=
  match from_date, to_date with
  | some f, some t => (f, t)
  | _, _ => get_default_dates env

/-- Python dict assignment `d[k] = v` / `d.update({k: v})`: replace the
value in place when the key is present, append the pair otherwise. -/
def dict_set (d : List (String × Val)) (k : String) (v : Val) : List (String × Val) :=
  if k ∈ d.map Prod.fst then d.map (fun p => if p.1 = k then (k, v) else p)
  else d ++ [(k, v)]

/-- The entries of a successful report list, `[]` on error. -/
def ok_entries (r : Except ApiError (List (String × Request))) : List (String × Request) :=
  match r with
  | .ok l => l
  | .error _ => []

/-- The keys of a `get_reports` result, `none` when the call raised. -/
def report_keys (r : Except ApiError (List (String × Request))) : Option (List String) :=
  match r with
  | .ok l => some (l.map Prod.fst)
  | .error _ => none

/-- The `for report_name in self.report_names` loop shared by
`PerformanceReport.get_reports` and
`TargetingValidationRulesReport.get_reports`: one `{name: result}` entry
is appended per name; a raised error aborts the loop and propagates. -/
def simple_report_loop (f : String → Except ApiError Request) :
    List String → Except ApiError (List (String × Request))
  | [] => .ok []
  | n :: rest =>
    match f n with
    | .error e => .error e
    | .ok r =>
      match simple_report_loop f rest with
      | .error e => .error e
      | .ok tail => .ok ((n, r) :: tail)

/-- The `for report_name in self.report_names` loop of
`RawDataReport.get_reports`: each name contributes a group of one or two
entries; a raised error aborts the loop and propagates. -/
def grouped_report_loop (f : String → Except ApiError (List (String × Request))) :
    List String → Except ApiError (List (String × Request))
  | [] => .ok []
  | n :: rest =>
    match f n with
    | .error e => .error e
    | .ok es =>
      match grouped_report_loop f rest with
      | .error e => .error e
      | .ok tail => .ok (es ++ tail)

/-- Source attribute `PerformanceReport.report_names` (api.py lines 9-12). -/
def PerformanceReport.report_names : List String :=
  ["partners_report", "partners_by_date_report",
   "daily_report", "geo_report", "geo_by_date_report"]

/-- The `request_args` built by `PerformanceReport._get_report`
(api.py lines 39-41) after date resolution. -/
def PerformanceReport.build_request (env : Env) (from_date to_date : Option Nat)
    (timezone : String) (api_report_name : String) : Request :=
  let (f, t) := resolve_dates env from_date to_date
  { reportName := api_report_name,
    requestArgs := [("from", .date f), ("to", .date t), ("timezone", .str timezone)] }

/-- Source method `PerformanceReport._get_report` (api.py lines 14-41):
validate, default missing dates, assemble the request.  `report_names` is
the instance's current `self.report_names`. -/
def PerformanceReport.single_report (env : Env) (report_names : List String)
    (from_date to_date : Option Nat) (timezone : String)
    (api_report_name : String) : Except ApiError Request :=
  match validate_dates_and_report_names api_report_name report_names from_date to_date with
  | .error e => .error e
  | .ok _ => .ok (PerformanceReport.build_request env from_date to_date timezone api_report_name)

/-- Modelled from the spec: `BaseAppsFlyer.get_report` (not under `src/`)
is the shared execute-and-parse wrapper around `_get_report`; at the
modelled boundary it issues exactly the request `_get_report` assembles. -/
def PerformanceReport.get_report (env : Env) (report_names : List String)
    (from_date to_date : Option Nat) (timezone : String)
    (api_report_name : String) : Except ApiError Request :=
  PerformanceReport.single_report env report_names from_date to_date timezone api_report_name

/-- Source method `PerformanceReport.get_reports` (api.py lines 43-62).  The first
component is the collected `all_reports` list; the second is the value of
`self.report_names` after the call (the exclusion filtering mutates it in
place before the loop). -/
def PerformanceReport.get_reports (env : Env) (report_names : List String)
    (exclude_reports : List String) (from_date to_date : Option Nat)
    (timezone : String) :
    Except ApiError (List (String × Request)) × List String :=
  let names := if exclude_reports.isEmpty then report_names
    else do_reports_exclusion report_names exclude_reports
  (simple_report_loop
      (fun n => PerformanceReport.get_report env names from_date to_date timezone n) names,
   names)

/-- Source attribute `RawDataReport.additional_fields_uninstall_query`
(api.py lines 67-70). -/
def RawDataReport.additional_fields_uninstall_query : List String :=
  ["gp_referrer", "gp_click_time",
   "gp_install_begin", "amazon_aid", "keyword_match_type"]

/-- Source attribute `RawDataReport.additional_fields` (api.py lines 72-76). -/
def RawDataReport.additional_fields : List String :=
  ["install_app_store", "contributor1_match_type",
   "contributor2_match_type", "contributor3_match_type",
   "match_type", "device_category"] ++ RawDataReport.additional_fields_uninstall_query

/-- Source attribute `RawDataReport.special_report_names` (api.py lines 78-80). -/
def RawDataReport.special_report_names : List String :=
  ["uninstall_events_report"]

/-- Source attribute `RawDataReport.report_names` (api.py lines 82-87). -/
def RawDataReport.report_names : List String :=
  ["installs_report",
   "in_app_events_report",
   "organic_installs_report",
   "organic_in_app_events_report"] ++ RawDataReport.special_report_names

/-- Source attribute `RawDataReport.report_with_retargeting` (api.py lines 89-92). -/
def RawDataReport.report_with_retargeting : List String :=
  ["installs_report", "in_app_events_report"]

/-- The `request_args` built by `RawDataReport._get_report`
(api.py lines 124-133): base dictionary, then the uninstall-specific
`additional_fields` override when `different_additional_fields`, then the
`reattr` flag when `retargeting`. -/
def RawDataReport.build_request (env : Env) (from_date to_date : Option Nat)
    (timezone : String) (api_report_name : String)
    (retargeting : Bool) (different_additional_fields : Bool) : Request :=
  let (f, t) := resolve_dates env from_date to_date
  let args : List (String × Val) :=
    [("from", .date f), ("to", .date t), ("timezone", .str timezone),
     ("additional_fields", .str (String.intercalate "," RawDataReport.additional_fields))]
  let args := if different_additional_fields then
      dict_set args "additional_fields"
        (.str (String.intercalate "," RawDataReport.additional_fields_uninstall_query))
    else args
  let args := if retargeting then dict_set args "reattr" (.str "true") else args
  { reportName := api_report_name, requestArgs := args }

/-- Source method `RawDataReport._get_report` (api.py lines 94-135). -/
def RawDataReport.single_report (env : Env) (report_names : List String)
    (from_date to_date : Option Nat) (timezone : String)
    (api_report_name : String) (retargeting : Bool)
    (different_additional_fields : Bool) : Except ApiError Request :=
  match validate_dates_and_report_names api_report_name report_names from_date to_date with
  | .error e => .error e
  | .ok _ => .ok (RawDataReport.build_request env from_date to_date timezone
      api_report_name retargeting different_additional_fields)

/-- Modelled from the spec: `BaseAppsFlyer.get_report` (not under `src/`)
is the shared execute-and-parse wrapper around `_get_report`; at the
modelled boundary it issues exactly the request `_get_report` assembles. -/
def RawDataReport.get_report (env : Env) (report_names : List String)
    (from_date to_date : Option Nat) (timezone : String)
    (api_report_name : String) (retargeting : Bool)
    (different_additional_fields : Bool) : Except ApiError Request :=
  RawDataReport.single_report env report_names from_date to_date timezone
    api_report_name retargeting different_additional_fields

/-- The loop body of `RawDataReport.get_reports` (api.py lines 161-172):
a name in `report_with_retargeting` contributes the entry pair
`{name: ...}` then `{name_retargeting: ...}`; a name in
`special_report_names` is fetched with `different_additional_fields=True`;
any other name is fetched plainly. -/
def RawDataReport.report_group (env : Env) (report_names : List String)
    (from_date to_date : Option Nat) (timezone : String) (report_name : String) :
    Except ApiError (List (String × Request)) :=
  if report_name ∈ RawDataReport.report_with_retargeting then
    match RawDataReport.get_report env report_names from_date to_date timezone
        report_name false false with
    | .error e => .error e
    | .ok r1 =>
      match RawDataReport.single_report env report_names from_date to_date timezone
          report_name true false with
      | .error e => .error e
      | .ok r2 => .ok [(report_name, r1), (report_name ++ "_retargeting", r2)]
  else if report_name ∈ RawDataReport.special_report_names then
    match RawDataReport.get_report env report_names from_date to_date timezone
        report_name false true with
    | .error e => .error e
    | .ok r => .ok [(report_name, r)]
  else
    match RawDataReport.get_report env report_names from_date to_date timezone
        report_name false false with
    | .error e => .error e
    | .ok r => .ok [(report_name, r)]

/-- Source method `RawDataReport.get_reports` (api.py lines 137-173).  The first
component is the collected `all_reports` list; the second is the value of
`self.report_names` after the call.  Note the source's second exclusion
branch assigns `do_reports_exclusion(self.report_with_retargeting, ...)`
to `self.report_names`, replacing the whole name list. -/
def RawDataReport.get_reports (env : Env) (report_names : List String)
    (exclude_reports exclude_retargeting_reports : List String)
    (from_date to_date : Option Nat) (timezone : String) :
    Except ApiError (List (String × Request)) × List String :=
  let names1 := if exclude_reports.isEmpty then report_names
    else do_reports_exclusion report_names exclude_reports
  let names2 := if exclude_retargeting_reports.isEmpty then names1
    else do_reports_exclusion RawDataReport.report_with_retargeting exclude_retargeting_reports
  (grouped_report_loop
      (RawDataReport.report_group env names2 from_date to_date timezone) names2,
   names2)

/-- Source attribute `TargetingValidationRulesReport.additional_fields`
(api.py lines 178-183).  The sixth element is the fused string
`"match_type,device_category"`. -/
def TargetingValidationRulesReport.additional_fields : List String :=
  ["rejected_reason", "rejected_reason_value",
   "contributor1_match_type", "contributor2_match_type",
   "contributor3_match_type", "match_type,device_category",
   "gp_referrer", "gp_click_time", "gp_install_begin",
   "amazon_aid", "keyword_match_type"]

/-- Source attribute `TargetingValidationRulesReport.report_names`
(api.py lines 185-188). -/
def TargetingValidationRulesReport.report_names : List String :=
  ["invalid_installs_report", "invalid_in_app_events_report"]

/-- The `request_args` built by `TargetingValidationRulesReport._get_report`
(api.py lines 215-218). -/
def TargetingValidationRulesReport.build_request (env : Env)
    (from_date to_date : Option Nat) (timezone : String)
    (api_report_name : String) : Request :=
  let (f, t) := resolve_dates env from_date to_date
  { reportName := api_report_name,
    requestArgs :=
      [("from", .date f), ("to", .date t), ("timezone", .str timezone),
       ("additional_fields",
        .str (String.intercalate "," TargetingValidationRulesReport.additional_fields))] }

/-- Source method `TargetingValidationRulesReport._get_report`
(api.py lines 190-220). -/
def TargetingValidationRulesReport.single_report (env : Env)
    (report_names : List String) (from_date to_date : Option Nat)
    (timezone : String) (api_report_name : String) : Except ApiError Request :=
  match validate_dates_and_report_names api_report_name report_names from_date to_date with
  | .error e => .error e
  | .ok _ => .ok (TargetingValidationRulesReport.build_request env from_date to_date
      timezone api_report_name)

/-- Modelled from the spec: `BaseAppsFlyer.get_report` (not under `src/`)
is the shared execute-and-parse wrapper around `_get_report`; at the
modelled boundary it issues exactly the request `_get_report` assembles. -/
def TargetingValidationRulesReport.get_report (env : Env)
    (report_names : List String) (from_date to_date : Option Nat)
    (timezone : String) (api_report_name : String) : Except ApiError Request :=
  TargetingValidationRulesReport.single_report env report_names from_date to_date
    timezone api_report_name

/-- Source method `TargetingValidationRulesReport.get_reports`
(api.py lines 222-240). -/
def TargetingValidationRulesReport.get_reports (env : Env)
    (report_names : List String) (exclude_reports : List String)
    (from_date to_date : Option Nat) (timezone : String) :
    Except ApiError (List (String × Request)) × List String :=
  let names := if exclude_reports.isEmpty then report_names
    else do_reports_exclusion report_names exclude_reports
  (simple_report_loop
      (fun n => TargetingValidationRulesReport.get_report env names from_date to_date
        timezone n) names,
   names)

/-- Split a character list at every occurrence of the separator. -/
def splitOnChar (c : Char) : List Char → List (List Char)
  | [] => [[]]
  | x :: xs =>
    match splitOnChar c xs with
    | [] => if x = c then [[], []] else [[x]]
    | y :: ys => if x = c then [] :: y :: ys else (x :: y) :: ys

/-- Modelled from the spec: the CSV decoding of the shared base capability
(`_get_csv`, not under `src/`): the response body is CSV text and the
output is the ordered sequence of column-to-value row mappings obtained by
parsing the CSV with the header row as keys. -/
def parse_csv (s : String) : List (List (String × String)) :=
  match (splitOnChar '\n' s.data).map (fun l => (splitOnChar ',' l).map String.mk) with
  | [] => []
  | header :: rows => rows.map (fun r => header.zip r)

/-- The pure entry group contributed to `all_reports` by one report name
in `RawDataReport.get_reports`, once validation is known to succeed. -/
def RawDataReport.group_entries (env : Env) (from_date to_date : Option Nat)
    (timezone : String) (report_name : String) : List (String × Request) :=
  if report_name ∈ RawDataReport.report_with_retargeting then
    [(report_name, RawDataReport.build_request env from_date to_date timezone
        report_name false false),
     (report_name ++ "_retargeting", RawDataReport.build_request env from_date to_date
        timezone report_name true false)]
  else if report_name ∈ RawDataReport.special_report_names then
    [(report_name, RawDataReport.build_request env from_date to_date timezone
        report_name false true)]
  else
    [(report_name, RawDataReport.build_request env from_date to_date timezone
        report_name false false)]

/-- The keys the entry group of one report name contributes: the name
itself, followed by the retargeting-suffixed key for names in
`report_with_retargeting`. -/
def RawDataReport.key_group (report_name : String) : List String :=
  if report_name ∈ RawDataReport.report_with_retargeting then
    [report_name, report_name ++ "_retargeting"]
  else [report_name]

/-- Formalisation of the exclusion reading in which exactly the entries
keyed by the excluded names themselves are removed from a `get_reports`
result (the spec sentence "excluding a subset of names removes exactly
those keys"). -/
def remove_entries_keyed (l : List (String × Request)) (excl : List String) :
    List (String × Request) :=
  l.filter (fun e => ¬ e.1 ∈ excl)

theorem validate_ok {name : String} {allowed : List String} {fd td : Option Nat}
    (h1 : name ∈ allowed) (h2 : fd.isSome = td.isSome) :
    validate_dates_and_report_names name allowed fd td = .ok () := by
  simp [validate_dates_and_report_names, h1, h2]

theorem simple_report_loop_ok {f : String → Except ApiError Request}
    {g : String → Request} {l : List String}
    (h : ∀ n ∈ l, f n = .ok (g n)) :
    simple_report_loop f l = .ok (l.map (fun n => (n, g n))) := by
  induction l with
  | nil => rfl
  | cons n rest ih =>
    have hn := h n (by simp)
    have ht := ih (fun m hm => h m (by simp [hm]))
    simp [simple_report_loop, hn, ht]

theorem grouped_report_loop_ok {f : String → Except ApiError (List (String × Request))}
    {g : String → List (String × Request)} {l : List String}
    (h : ∀ n ∈ l, f n = .ok (g n)) :
    grouped_report_loop f l = .ok (l.flatMap g) := by
  induction l with
  | nil => rfl
  | cons n rest ih =>
    have hn := h n (by simp)
    have ht := ih (fun m hm => h m (by simp [hm]))
    simp [grouped_report_loop, hn, ht]

theorem perf_single_report_ok {names : List String} {fd td : Option Nat}
    (env : Env) (tz n : String) (h1 : n ∈ names) (h2 : fd.isSome = td.isSome) :
    PerformanceReport.single_report env names fd td tz n
      = .ok (PerformanceReport.build_request env fd td tz n) := by
  simp [PerformanceReport.single_report, validate_ok h1 h2]

theorem raw_single_report_ok {names : List String} {fd td : Option Nat}
    (env : Env) (tz n : String) (r d : Bool) (h1 : n ∈ names) (h2 : fd.isSome = td.isSome) :
    RawDataReport.single_report env names fd td tz n r d
      = .ok (RawDataReport.build_request env fd td tz n r d) := by
  simp [RawDataReport.single_report, validate_ok h1 h2]

theorem tvr_single_report_ok {names : List String}
    {fd td : Option Nat} (env : Env) (tz n : String)
    (h1 : n ∈ names) (h2 : fd.isSome = td.isSome) :
    TargetingValidationRulesReport.single_report env names fd td tz n
      = .ok (TargetingValidationRulesReport.build_request env fd td tz n) := by
  simp [TargetingValidationRulesReport.single_report, validate_ok h1 h2]

theorem RawDataReport.report_group_ok {names : List String} {fd td : Option Nat}
    (env : Env) (tz n : String) (h1 : n ∈ names) (h2 : fd.isSome = td.isSome) :
    RawDataReport.report_group env names fd td tz n
      = .ok (RawDataReport.group_entries env fd td tz n) := by
  by_cases hr : n ∈ RawDataReport.report_with_retargeting
  · simp [RawDataReport.report_group, RawDataReport.group_entries, hr,
      RawDataReport.get_report, raw_single_report_ok env tz n false false h1 h2,
      raw_single_report_ok env tz n true false h1 h2]
  · by_cases hs : n ∈ RawDataReport.special_report_names
    · simp [RawDataReport.report_group, RawDataReport.group_entries, hr, hs,
        RawDataReport.get_report, raw_single_report_ok env tz n false true h1 h2]
    · simp [RawDataReport.report_group, RawDataReport.group_entries, hr, hs,
        RawDataReport.get_report, raw_single_report_ok env tz n false false h1 h2]

theorem map_fst_entries {g : String → Request} (l : List String) :
    (l.map (fun n => (n, g n))).map Prod.fst = l := by
  simp [List.map_map, Function.comp_def]

theorem RawDataReport.group_entries_keys (env : Env) (fd td : Option Nat)
    (tz n : String) :
    (RawDataReport.group_entries env fd td tz n).map Prod.fst
      = RawDataReport.key_group n := by
  by_cases hr : n ∈ RawDataReport.report_with_retargeting
  · simp [RawDataReport.group_entries, RawDataReport.key_group, hr]
  · by_cases hs : n ∈ RawDataReport.special_report_names
    · simp [RawDataReport.group_entries, RawDataReport.key_group, hr, hs]
    · simp [RawDataReport.group_entries, RawDataReport.key_group, hr, hs]

theorem flatMap_map_fst (l : List String) (env : Env) (fd td : Option Nat)
    (tz : String) :
    (l.flatMap (RawDataReport.group_entries env fd td tz)).map Prod.fst
      = l.flatMap RawDataReport.key_group := by
  induction l with
  | nil => rfl
  | cons n rest ih =>
    simp [RawDataReport.group_entries_keys, ih]

theorem RawDataReport.group_entries_reportName (env : Env) (fd td : Option Nat)
    (tz n : String) :
    ∀ e ∈ RawDataReport.group_entries env fd td tz n, e.2.reportName = n := by
  intro e he
  by_cases hr : n ∈ RawDataReport.report_with_retargeting
  · simp [RawDataReport.group_entries, hr] at he
    rcases he with he | he <;> subst he <;> rfl
  · by_cases hs : n ∈ RawDataReport.special_report_names
    · simp [RawDataReport.group_entries, hr, hs] at he
      subst he; rfl
    · simp [RawDataReport.group_entries, hr, hs] at he
      subst he; rfl

theorem perf_get_reports_snd (env : Env) (names excl : List String)
    (fd td : Option Nat) (tz : String) :
    (PerformanceReport.get_reports env names excl fd td tz).2
      = if excl.isEmpty then names else do_reports_exclusion names excl := rfl

theorem tvr_get_reports_snd (env : Env)
    (names excl : List String) (fd td : Option Nat) (tz : String) :
    (TargetingValidationRulesReport.get_reports env names excl fd td tz).2
      = if excl.isEmpty then names else do_reports_exclusion names excl := rfl

theorem raw_get_reports_snd (env : Env)
    (names excl exclRt : List String) (fd td : Option Nat) (tz : String) :
    (RawDataReport.get_reports env names excl exclRt fd td tz).2
      = if exclRt.isEmpty then
          (if excl.isEmpty then names else do_reports_exclusion names excl)
        else do_reports_exclusion RawDataReport.report_with_retargeting exclRt := rfl

theorem perf_get_reports_fst (env : Env) (names excl : List String)
    (fd td : Option Nat) (tz : String) (hd : fd.isSome = td.isSome) :
    (PerformanceReport.get_reports env names excl fd td tz).1
      = .ok ((PerformanceReport.get_reports env names excl fd td tz).2.map
          (fun n => (n, PerformanceReport.build_request env fd td tz n))) := by
  apply simple_report_loop_ok
  intro n hn
  exact perf_single_report_ok env tz n hn hd

theorem tvr_get_reports_fst (env : Env)
    (names excl : List String) (fd td : Option Nat) (tz : String)
    (hd : fd.isSome = td.isSome) :
    (TargetingValidationRulesReport.get_reports env names excl fd td tz).1
      = .ok ((TargetingValidationRulesReport.get_reports env names excl fd td tz).2.map
          (fun n => (n, TargetingValidationRulesReport.build_request env fd td tz n))) := by
  apply simple_report_loop_ok
  intro n hn
  exact tvr_single_report_ok env tz n hn hd

theorem raw_get_reports_fst (env : Env)
    (names excl exclRt : List String) (fd td : Option Nat) (tz : String)
    (hd : fd.isSome = td.isSome) :
    (RawDataReport.get_reports env names excl exclRt fd td tz).1
      = .ok ((RawDataReport.get_reports env names excl exclRt fd td tz).2.flatMap
          (RawDataReport.group_entries env fd td tz)) := by
  apply grouped_report_loop_ok
  intro n hn
  exact RawDataReport.report_group_ok env tz n hn hd

theorem entries_filter (l excl : List String) (g : String → Request)
    (hg : ∀ n, (g n).reportName = n) :
    (l.map (fun n => (n, g n))).filter (fun e => ¬ e.2.reportName ∈ excl)
      = (l.filter (fun n => ¬ n ∈ excl)).map (fun n => (n, g n)) := by
  induction l with
  | nil => rfl
  | cons n rest ih =>
    simp only [decide_not] at ih
    by_cases hn : n ∈ excl <;> simp [hg, hn, ih]

theorem group_entries_filter_one (env : Env) (fd td : Option Nat) (tz : String)
    (excl : List String) (n : String) :
    (RawDataReport.group_entries env fd td tz n).filter
        (fun e => ¬ e.2.reportName ∈ excl)
      = if n ∈ excl then [] else RawDataReport.group_entries env fd td tz n := by
  by_cases hn : n ∈ excl
  · rw [if_pos hn]
    apply List.filter_eq_nil_iff.mpr
    intro e he
    simp [RawDataReport.group_entries_reportName env fd td tz n e he, hn]
  · rw [if_neg hn]
    apply List.filter_eq_self.mpr
    intro e he
    simp [RawDataReport.group_entries_reportName env fd td tz n e he, hn]

theorem group_entries_filter (env : Env) (fd td : Option Nat) (tz : String)
    (l excl : List String) :
    (l.flatMap (RawDataReport.group_entries env fd td tz)).filter
        (fun e => ¬ e.2.reportName ∈ excl)
      = (l.filter (fun n => ¬ n ∈ excl)).flatMap
          (RawDataReport.group_entries env fd td tz) := by
  induction l with
  | nil => rfl
  | cons n rest ih =>
    simp only [decide_not] at ih
    by_cases hn : n ∈ excl <;>
      simp [List.filter_append, group_entries_filter_one, hn, ih] <;>
      intro a b hab <;>
      rw [RawDataReport.group_entries_reportName env fd td tz n (a, b) hab] <;>
      exact hn

/-- A concrete lookback environment (today is day 100, a 7-day window)
used to evaluate the model on concrete inputs. -/
def env0 : Env := ⟨100, 7⟩

/-- Claim C9: the CSV decoding used by every report fetch satisfies the
round-trip example: parsing a payload with header line `a,b` and one data
row `1,2` yields exactly the single-row sequence mapping `a` to `1` and
`b` to `2`, with the header fields as keys in column order. -/
theorem c9_csv_roundtrip : parse_csv "a,b\n1,2" = [[("a", "1"), ("b", "2")]] := by
  decide

/-- Claim C2, failing-input evidence: with the default name list and
`exclude_retargeting_reports = ["installs_report"]`, `get_reports`
replaces `self.report_names` with the exclusion-filtered retargeting
subset `["in_app_events_report"]`, so the base (non-retargeting) reports
`organic_installs_report`, `organic_in_app_events_report` and
`uninstall_events_report` are not fetched at all, contradicting the
claimed independence of the two exclusion lists. -/
theorem c2_retargeting_exclusion_replaces_name_list :
    (RawDataReport.get_reports env0 RawDataReport.report_names []
        ["installs_report"] none none DEFAULT_TIMEZONE).2
      = ["in_app_events_report"] ∧
    report_keys (RawDataReport.get_reports env0 RawDataReport.report_names []
        ["installs_report"] none none DEFAULT_TIMEZONE).1
      = some ["in_app_events_report", "in_app_events_report_retargeting"] := by
  exact ⟨by decide, by decide⟩

/-- Claim C1, counterexample: for `RawDataReport`, calling `get_reports`
with no exclusion arguments yields entry keys that include the two
retargeting-variant keys, so the keys do not equal the family's
`report_names`. -/
theorem c1_rawdata_keys_counterexample :
    report_keys (RawDataReport.get_reports env0 RawDataReport.report_names [] []
        none none DEFAULT_TIMEZONE).1
      = some ["installs_report", "installs_report_retargeting", "in_app_events_report",
              "in_app_events_report_retargeting", "organic_installs_report",
              "organic_in_app_events_report", "uninstall_events_report"] ∧
    ¬ report_keys (RawDataReport.get_reports env0 RawDataReport.report_names [] []
        none none DEFAULT_TIMEZONE).1
      = some RawDataReport.report_names := by
  exact ⟨by decide, by decide⟩

/-- Claim C1 (amended): calling `get_reports` with no exclusion arguments
returns, for `PerformanceReport` and `TargetingValidationRulesReport`, a
list whose entries' keys equal the family's `report_names`, one
singleton-mapping entry per name, in the declared iteration order; for
`RawDataReport` the keys are the `report_names` in declared order except
that each name in `report_with_retargeting` contributes an additional
adjacent entry keyed by the name suffixed with `_retargeting`. -/
theorem c1_get_reports_keys (env : Env) (fd td : Option Nat) (tz : String)
    (hd : fd.isSome = td.isSome) :
    report_keys (PerformanceReport.get_reports env PerformanceReport.report_names []
        fd td tz).1 = some PerformanceReport.report_names ∧
    report_keys (TargetingValidationRulesReport.get_reports env
        TargetingValidationRulesReport.report_names [] fd td tz).1
      = some TargetingValidationRulesReport.report_names ∧
    report_keys (RawDataReport.get_reports env RawDataReport.report_names [] []
        fd td tz).1
      = some (RawDataReport.report_names.flatMap RawDataReport.key_group) := by
  refine ⟨?_, ?_, ?_⟩
  · rw [perf_get_reports_fst env PerformanceReport.report_names [] fd td tz hd]
    simp [report_keys, List.map_map, Function.comp_def, perf_get_reports_snd]
  · rw [tvr_get_reports_fst env
      TargetingValidationRulesReport.report_names [] fd td tz hd]
    simp [report_keys, List.map_map, Function.comp_def,
      tvr_get_reports_snd]
  · rw [raw_get_reports_fst env RawDataReport.report_names [] [] fd td tz hd]
    simp [report_keys, flatMap_map_fst, raw_get_reports_snd]

/-- Witness for C1 (amended) at a concrete environment and default call. -/
theorem c1_get_reports_keys_witness :
    (Option.isSome (none : Option Nat) = Option.isSome (none : Option Nat)) ∧
    (report_keys (PerformanceReport.get_reports env0 PerformanceReport.report_names []
        none none DEFAULT_TIMEZONE).1 = some PerformanceReport.report_names ∧
     report_keys (TargetingValidationRulesReport.get_reports env0
        TargetingValidationRulesReport.report_names [] none none DEFAULT_TIMEZONE).1
       = some TargetingValidationRulesReport.report_names ∧
     report_keys (RawDataReport.get_reports env0 RawDataReport.report_names [] []
        none none DEFAULT_TIMEZONE).1
       = some (RawDataReport.report_names.flatMap RawDataReport.key_group)) :=
  ⟨rfl, c1_get_reports_keys env0 none none DEFAULT_TIMEZONE rfl⟩

/-- Claim C6: for every report family, calling the single-report method
with an `api_report_name` not in the family's allowed name set, or with
exactly one of `from_date`/`to_date` supplied, raises `ValidationError`;
in the model the error is returned before any request value is assembled,
so no request parameters exist and no fetch occurs. -/
theorem c6_validation_rejects (env : Env) (names : List String) (fd td : Option Nat)
    (tz name : String) (retargeting different : Bool)
    (h : ¬ name ∈ names ∨ ¬ fd.isSome = td.isSome) :
    PerformanceReport.single_report env names fd td tz name
      = .error .validationError ∧
    RawDataReport.single_report env names fd td tz name retargeting different
      = .error .validationError ∧
    TargetingValidationRulesReport.single_report env names fd td tz name
      = .error .validationError := by
  have hv : validate_dates_and_report_names name names fd td = .error .validationError := by
    rcases h with h | h
    · simp [validate_dates_and_report_names, h]
    · by_cases hm : name ∈ names <;> simp [validate_dates_and_report_names, hm, h]
  exact ⟨by simp [PerformanceReport.single_report, hv],
         by simp [RawDataReport.single_report, hv],
         by simp [TargetingValidationRulesReport.single_report, hv]⟩

/-- Witness for C6: an unknown report name against the declared
performance name set, with consistent (absent) dates. -/
theorem c6_validation_rejects_witness :
    (¬ "no_such_report" ∈ PerformanceReport.report_names ∨
      ¬ (none : Option Nat).isSome = (none : Option Nat).isSome) ∧
    (PerformanceReport.single_report env0 PerformanceReport.report_names none none
        DEFAULT_TIMEZONE "no_such_report" = .error .validationError ∧
     RawDataReport.single_report env0 PerformanceReport.report_names none none
        DEFAULT_TIMEZONE "no_such_report" false false = .error .validationError ∧
     TargetingValidationRulesReport.single_report env0 PerformanceReport.report_names
        none none DEFAULT_TIMEZONE "no_such_report" = .error .validationError) :=
  ⟨Or.inl (by decide),
   c6_validation_rejects env0 PerformanceReport.report_names none none
     DEFAULT_TIMEZONE "no_such_report" false false (Or.inl (by decide))⟩

/-- Claim C7: for every report family, when the single-report method is
called with both dates omitted, the dates placed in the request
parameters are exactly the pair returned by `get_default_dates` — an end
date equal to today and a start date equal to today minus the configured
number of days — and when both dates are supplied they are passed through
unchanged. -/
theorem c7_date_defaulting (env : Env) (names : List String) (tz name : String)
    (f t : Nat) (retargeting different : Bool) (h : name ∈ names) :
    get_default_dates env = (env.today - env.lookbackDays, env.today) ∧
    PerformanceReport.single_report env names none none tz name
      = .ok (PerformanceReport.build_request env none none tz name) ∧
    (PerformanceReport.build_request env none none tz name).requestArgs.lookup "from"
      = some (Val.date (get_default_dates env).1) ∧
    (PerformanceReport.build_request env none none tz name).requestArgs.lookup "to"
      = some (Val.date (get_default_dates env).2) ∧
    PerformanceReport.single_report env names (some f) (some t) tz name
      = .ok (PerformanceReport.build_request env (some f) (some t) tz name) ∧
    (PerformanceReport.build_request env (some f) (some t) tz name).requestArgs.lookup "from"
      = some (Val.date f) ∧
    (PerformanceReport.build_request env (some f) (some t) tz name).requestArgs.lookup "to"
      = some (Val.date t) ∧
    RawDataReport.single_report env names none none tz name retargeting different
      = .ok (RawDataReport.build_request env none none tz name retargeting different) ∧
    (RawDataReport.build_request env none none tz name retargeting
        different).requestArgs.lookup "from"
      = some (Val.date (get_default_dates env).1) ∧
    (RawDataReport.build_request env none none tz name retargeting
        different).requestArgs.lookup "to"
      = some (Val.date (get_default_dates env).2) ∧
    RawDataReport.single_report env names (some f) (some t) tz name retargeting different
      = .ok (RawDataReport.build_request env (some f) (some t) tz name retargeting different) ∧
    (RawDataReport.build_request env (some f) (some t) tz name retargeting
        different).requestArgs.lookup "from"
      = some (Val.date f) ∧
    (RawDataReport.build_request env (some f) (some t) tz name retargeting
        different).requestArgs.lookup "to"
      = some (Val.date t) ∧
    TargetingValidationRulesReport.single_report env names none none tz name
      = .ok (TargetingValidationRulesReport.build_request env none none tz name) ∧
    (TargetingValidationRulesReport.build_request env none none tz name).requestArgs.lookup
        "from"
      = some (Val.date (get_default_dates env).1) ∧
    (TargetingValidationRulesReport.build_request env none none tz name).requestArgs.lookup
        "to"
      = some (Val.date (get_default_dates env).2) ∧
    TargetingValidationRulesReport.single_report env names (some f) (some t) tz name
      = .ok (TargetingValidationRulesReport.build_request env (some f) (some t) tz name) ∧
    (TargetingValidationRulesReport.build_request env (some f) (some t) tz
        name).requestArgs.lookup "from"
      = some (Val.date f) ∧
    (TargetingValidationRulesReport.build_request env (some f) (some t) tz
        name).requestArgs.lookup "to"
      = some (Val.date t) := by
  refine ⟨rfl,
    perf_single_report_ok env tz name h rfl, rfl, rfl,
    perf_single_report_ok env tz name h rfl, rfl, rfl,
    raw_single_report_ok env tz name retargeting different h rfl, ?_, ?_,
    raw_single_report_ok env tz name retargeting different h rfl, ?_, ?_,
    tvr_single_report_ok env tz name h rfl, rfl, rfl,
    tvr_single_report_ok env tz name h rfl, rfl, rfl⟩ <;>
  cases retargeting <;> cases different <;> rfl

/-- Witness for C7 at a concrete environment, name and date pair. -/
theorem c7_date_defaulting_witness :
    ("partners_report" ∈ PerformanceReport.report_names) ∧
    (get_default_dates env0 = (env0.today - env0.lookbackDays, env0.today) ∧
     PerformanceReport.single_report env0 PerformanceReport.report_names none none
        DEFAULT_TIMEZONE "partners_report"
       = .ok (PerformanceReport.build_request env0 none none DEFAULT_TIMEZONE
           "partners_report") ∧
     (PerformanceReport.build_request env0 none none DEFAULT_TIMEZONE
        "partners_report").requestArgs.lookup "from"
       = some (Val.date (get_default_dates env0).1) ∧
     (PerformanceReport.build_request env0 none none DEFAULT_TIMEZONE
        "partners_report").requestArgs.lookup "to"
       = some (Val.date (get_default_dates env0).2) ∧
     PerformanceReport.single_report env0 PerformanceReport.report_names (some 90) (some 95)
        DEFAULT_TIMEZONE "partners_report"
       = .ok (PerformanceReport.build_request env0 (some 90) (some 95) DEFAULT_TIMEZONE
           "partners_report") ∧
     (PerformanceReport.build_request env0 (some 90) (some 95) DEFAULT_TIMEZONE
        "partners_report").requestArgs.lookup "from"
       = some (Val.date 90) ∧
     (PerformanceReport.build_request env0 (some 90) (some 95) DEFAULT_TIMEZONE
        "partners_report").requestArgs.lookup "to"
       = some (Val.date 95) ∧
     RawDataReport.single_report env0 PerformanceReport.report_names none none
        DEFAULT_TIMEZONE "partners_report" false false
       = .ok (RawDataReport.build_request env0 none none DEFAULT_TIMEZONE
           "partners_report" false false) ∧
     (RawDataReport.build_request env0 none none DEFAULT_TIMEZONE
        "partners_report" false false).requestArgs.lookup "from"
       = some (Val.date (get_default_dates env0).1) ∧
     (RawDataReport.build_request env0 none none DEFAULT_TIMEZONE
        "partners_report" false false).requestArgs.lookup "to"
       = some (Val.date (get_default_dates env0).2) ∧
     RawDataReport.single_report env0 PerformanceReport.report_names (some 90) (some 95)
        DEFAULT_TIMEZONE "partners_report" false false
       = .ok (RawDataReport.build_request env0 (some 90) (some 95) DEFAULT_TIMEZONE
           "partners_report" false false) ∧
     (RawDataReport.build_request env0 (some 90) (some 95) DEFAULT_TIMEZONE
        "partners_report" false false).requestArgs.lookup "from"
       = some (Val.date 90) ∧
     (RawDataReport.build_request env0 (some 90) (some 95) DEFAULT_TIMEZONE
        "partners_report" false false).requestArgs.lookup "to"
       = some (Val.date 95) ∧
     TargetingValidationRulesReport.single_report env0 PerformanceReport.report_names
        none none DEFAULT_TIMEZONE "partners_report"
       = .ok (TargetingValidationRulesReport.build_request env0 none none
           DEFAULT_TIMEZONE "partners_report") ∧
     (TargetingValidationRulesReport.build_request env0 none none DEFAULT_TIMEZONE
        "partners_report").requestArgs.lookup "from"
       = some (Val.date (get_default_dates env0).1) ∧
     (TargetingValidationRulesReport.build_request env0 none none DEFAULT_TIMEZONE
        "partners_report").requestArgs.lookup "to"
       = some (Val.date (get_default_dates env0).2) ∧
     TargetingValidationRulesReport.single_report env0 PerformanceReport.report_names
        (some 90) (some 95) DEFAULT_TIMEZONE "partners_report"
       = .ok (TargetingValidationRulesReport.build_request env0 (some 90) (some 95)
           DEFAULT_TIMEZONE "partners_report") ∧
     (TargetingValidationRulesReport.build_request env0 (some 90) (some 95)
        DEFAULT_TIMEZONE "partners_report").requestArgs.lookup "from"
       = some (Val.date 90) ∧
     (TargetingValidationRulesReport.build_request env0 (some 90) (some 95)
        DEFAULT_TIMEZONE "partners_report").requestArgs.lookup "to"
       = some (Val.date 95)) :=
  ⟨by decide,
   c7_date_defaulting env0 PerformanceReport.report_names DEFAULT_TIMEZONE
     "partners_report" 90 95 false false (by decide)⟩

/-- Claim C8: for every report family, calling `get_reports` with a
non-empty `exclude_reports` replaces the instance's `report_names` with
the exclusion-filtered list, so after the call `self.report_names` equals
the filtered list, and a second `get_reports` call on the same instance
iterates over the already-filtered names rather than the original
declared set (for `RawDataReport` the second call's keys are the
key groups of the filtered names). -/
theorem c8_report_names_mutation (env : Env) (names excl : List String)
    (fd td : Option Nat) (tz : String)
    (hx : ¬ excl = []) (hd : fd.isSome = td.isSome) :
    (PerformanceReport.get_reports env names excl fd td tz).2
      = do_reports_exclusion names excl ∧
    report_keys (PerformanceReport.get_reports env
        (PerformanceReport.get_reports env names excl fd td tz).2 [] fd td tz).1
      = some (do_reports_exclusion names excl) ∧
    (TargetingValidationRulesReport.get_reports env names excl fd td tz).2
      = do_reports_exclusion names excl ∧
    report_keys (TargetingValidationRulesReport.get_reports env
        (TargetingValidationRulesReport.get_reports env names excl fd td tz).2
        [] fd td tz).1
      = some (do_reports_exclusion names excl) ∧
    (RawDataReport.get_reports env names excl [] fd td tz).2
      = do_reports_exclusion names excl ∧
    report_keys (RawDataReport.get_reports env
        (RawDataReport.get_reports env names excl [] fd td tz).2 [] [] fd td tz).1
      = some ((do_reports_exclusion names excl).flatMap RawDataReport.key_group) := by
  have hE : excl.isEmpty = false := by
    cases excl with
    | nil => exact absurd rfl hx
    | cons a l => rfl
  have hP : (PerformanceReport.get_reports env names excl fd td tz).2
      = do_reports_exclusion names excl := by
    rw [perf_get_reports_snd, hE]; rfl
  have hT : (TargetingValidationRulesReport.get_reports env names excl fd td tz).2
      = do_reports_exclusion names excl := by
    rw [tvr_get_reports_snd, hE]; rfl
  have hRw : (RawDataReport.get_reports env names excl [] fd td tz).2
      = do_reports_exclusion names excl := by
    rw [raw_get_reports_snd, hE]; rfl
  refine ⟨hP, ?_, hT, ?_, hRw, ?_⟩
  · rw [perf_get_reports_fst env
      (PerformanceReport.get_reports env names excl fd td tz).2 [] fd td tz hd]
    simp [report_keys, List.map_map, Function.comp_def,
      perf_get_reports_snd, hP]
    intro h
    exact absurd h hx
  · rw [tvr_get_reports_fst env
      (TargetingValidationRulesReport.get_reports env names excl fd td tz).2 [] fd td tz hd]
    simp [report_keys, List.map_map, Function.comp_def,
      tvr_get_reports_snd, hT]
    intro h
    exact absurd h hx
  · rw [raw_get_reports_fst env
      (RawDataReport.get_reports env names excl [] fd td tz).2 [] [] fd td tz hd]
    simp only [report_keys, flatMap_map_fst, Option.some.injEq]
    rw [raw_get_reports_snd]
    simp only [List.isEmpty_nil, ite_true]
    rw [hRw]

/-- Witness for C8: excluding `installs_report` from the raw-data name
list at a concrete environment, checked across all three families. -/
theorem c8_report_names_mutation_witness :
    (¬ ["installs_report"] = ([] : List String)) ∧
    ((PerformanceReport.get_reports env0 RawDataReport.report_names ["installs_report"]
        none none DEFAULT_TIMEZONE).2
       = do_reports_exclusion RawDataReport.report_names ["installs_report"] ∧
     report_keys (PerformanceReport.get_reports env0
        (PerformanceReport.get_reports env0 RawDataReport.report_names ["installs_report"]
          none none DEFAULT_TIMEZONE).2 [] none none DEFAULT_TIMEZONE).1
       = some (do_reports_exclusion RawDataReport.report_names ["installs_report"]) ∧
     (TargetingValidationRulesReport.get_reports env0 RawDataReport.report_names
        ["installs_report"] none none DEFAULT_TIMEZONE).2
       = do_reports_exclusion RawDataReport.report_names ["installs_report"] ∧
     report_keys (TargetingValidationRulesReport.get_reports env0
        (TargetingValidationRulesReport.get_reports env0 RawDataReport.report_names
          ["installs_report"] none none DEFAULT_TIMEZONE).2 [] none none DEFAULT_TIMEZONE).1
       = some (do_reports_exclusion RawDataReport.report_names ["installs_report"]) ∧
     (RawDataReport.get_reports env0 RawDataReport.report_names ["installs_report"] []
        none none DEFAULT_TIMEZONE).2
       = do_reports_exclusion RawDataReport.report_names ["installs_report"] ∧
     report_keys (RawDataReport.get_reports env0
        (RawDataReport.get_reports env0 RawDataReport.report_names ["installs_report"] []
          none none DEFAULT_TIMEZONE).2 [] [] none none DEFAULT_TIMEZONE).1
       = some ((do_reports_exclusion RawDataReport.report_names
           ["installs_report"]).flatMap RawDataReport.key_group)) :=
  ⟨by decide,
   c8_report_names_mutation env0 RawDataReport.report_names ["installs_report"]
     none none DEFAULT_TIMEZONE (by decide) rfl⟩

/-- Following the spec's words for comparison: the twelve targeting
validation field names with `match_type` and `device_category` listed as
separate elements. -/
def TargetingValidationRulesReport.additional_fields_separate : List String :=
  ["rejected_reason", "rejected_reason_value",
   "contributor1_match_type", "contributor2_match_type",
   "contributor3_match_type", "match_type", "device_category",
   "gp_referrer", "gp_click_time", "gp_install_begin",
   "amazon_aid", "keyword_match_type"]

/-- Claim C10: the `additional_fields` tuple of
`TargetingValidationRulesReport` has eleven elements, one of which is the
fused string `match_type,device_category`, so its comma-join splits into
twelve comma-separated field names and is identical to the join of the
twelve separately-listed names; every targeting-validation report request
carries exactly this joined string as its `additional_fields` parameter. -/
theorem c10_fused_match_type_field (env : Env) (names : List String)
    (fd td : Option Nat) (tz name : String)
    (h1 : name ∈ names) (h2 : fd.isSome = td.isSome) :
    TargetingValidationRulesReport.additional_fields.length = 11 ∧
    String.intercalate "," TargetingValidationRulesReport.additional_fields
      = String.intercalate "," TargetingValidationRulesReport.additional_fields_separate ∧
    TargetingValidationRulesReport.additional_fields_separate.length = 12 ∧
    (splitOnChar ',' (String.intercalate ","
        TargetingValidationRulesReport.additional_fields).data).length = 12 ∧
    TargetingValidationRulesReport.single_report env names fd td tz name
      = .ok (TargetingValidationRulesReport.build_request env fd td tz name) ∧
    (TargetingValidationRulesReport.build_request env fd td tz name).requestArgs.lookup
        "additional_fields"
      = some (Val.str (String.intercalate ","
          TargetingValidationRulesReport.additional_fields)) :=
  ⟨by decide, by decide, by decide, by decide,
   tvr_single_report_ok env tz name h1 h2, rfl⟩

/-- Witness for C10 at a concrete environment and report name. -/
theorem c10_fused_match_type_field_witness :
    ("invalid_installs_report" ∈ TargetingValidationRulesReport.report_names) ∧
    (TargetingValidationRulesReport.additional_fields.length = 11 ∧
     String.intercalate "," TargetingValidationRulesReport.additional_fields
       = String.intercalate "," TargetingValidationRulesReport.additional_fields_separate ∧
     TargetingValidationRulesReport.additional_fields_separate.length = 12 ∧
     (splitOnChar ',' (String.intercalate ","
         TargetingValidationRulesReport.additional_fields).data).length = 12 ∧
     TargetingValidationRulesReport.single_report env0
        TargetingValidationRulesReport.report_names none none DEFAULT_TIMEZONE
        "invalid_installs_report"
       = .ok (TargetingValidationRulesReport.build_request env0 none none
           DEFAULT_TIMEZONE "invalid_installs_report") ∧
     (TargetingValidationRulesReport.build_request env0 none none DEFAULT_TIMEZONE
        "invalid_installs_report").requestArgs.lookup "additional_fields"
       = some (Val.str (String.intercalate ","
           TargetingValidationRulesReport.additional_fields))) :=
  ⟨by decide,
   c10_fused_match_type_field env0 TargetingValidationRulesReport.report_names
     none none DEFAULT_TIMEZONE "invalid_installs_report" (by decide) rfl⟩

/-- Claim C3, counterexample: for `RawDataReport` with
`exclude_reports = ["installs_report"]`, the result is not the
no-exclusion result with exactly the entries keyed by the excluded names
removed — the entry keyed `installs_report_retargeting`, whose key is not
in the exclusion list, is removed as well. -/
theorem c3_exclusion_removes_retargeting_sibling :
    (report_keys (RawDataReport.get_reports env0 RawDataReport.report_names
        ["installs_report"] [] none none DEFAULT_TIMEZONE).1).isSome = true ∧
    (report_keys (RawDataReport.get_reports env0 RawDataReport.report_names
        [] [] none none DEFAULT_TIMEZONE).1).isSome = true ∧
    ok_entries (RawDataReport.get_reports env0 RawDataReport.report_names
        ["installs_report"] [] none none DEFAULT_TIMEZONE).1
      ≠ remove_entries_keyed (ok_entries (RawDataReport.get_reports env0
          RawDataReport.report_names [] [] none none DEFAULT_TIMEZONE).1)
          ["installs_report"] := by
  exact ⟨by decide, by decide, by decide⟩

/-- Claim C3 (amended): for every report family and every exclusion list
whose elements form a subset of the family's `report_names`, calling
`get_reports` with that list as `exclude_reports` returns the
no-exclusion result with exactly the entries generated by the excluded
names removed — for `RawDataReport` this includes the `_retargeting`
variant entry of an excluded retargeting-capable name; no other entry is
added, removed, or reordered. -/
theorem c3_exclusion_filters_entries (env : Env) (fd td : Option Nat) (tz : String)
    (exclP exclR exclT : List String)
    (hd : fd.isSome = td.isSome)
    (hP : ∀ x ∈ exclP, x ∈ PerformanceReport.report_names)
    (hR : ∀ x ∈ exclR, x ∈ RawDataReport.report_names)
    (hT : ∀ x ∈ exclT, x ∈ TargetingValidationRulesReport.report_names) :
    (PerformanceReport.get_reports env PerformanceReport.report_names exclP fd td tz).1
      = .ok ((ok_entries (PerformanceReport.get_reports env PerformanceReport.report_names
          [] fd td tz).1).filter (fun e => ¬ e.2.reportName ∈ exclP)) ∧
    (RawDataReport.get_reports env RawDataReport.report_names exclR [] fd td tz).1
      = .ok ((ok_entries (RawDataReport.get_reports env RawDataReport.report_names
          [] [] fd td tz).1).filter (fun e => ¬ e.2.reportName ∈ exclR)) ∧
    (TargetingValidationRulesReport.get_reports env
        TargetingValidationRulesReport.report_names exclT fd td tz).1
      = .ok ((ok_entries (TargetingValidationRulesReport.get_reports env
          TargetingValidationRulesReport.report_names [] fd td tz).1).filter
          (fun e => ¬ e.2.reportName ∈ exclT)) := by
  refine ⟨?_, ?_, ?_⟩
  · rw [perf_get_reports_fst env PerformanceReport.report_names [] fd td tz hd,
      perf_get_reports_fst env PerformanceReport.report_names exclP fd td tz hd,
      perf_get_reports_snd env PerformanceReport.report_names [] fd td tz,
      perf_get_reports_snd env PerformanceReport.report_names exclP fd td tz]
    simp only [ok_entries, List.isEmpty_nil, ite_true]
    rw [entries_filter PerformanceReport.report_names exclP
      (fun n => PerformanceReport.build_request env fd td tz n) (fun n => rfl)]
    by_cases hE : exclP.isEmpty
    · have h0 : exclP = [] := by
        cases exclP with
        | nil => rfl
        | cons a l => simp [List.isEmpty] at hE
      subst h0
      simp [do_reports_exclusion]
    · simp [hE, do_reports_exclusion]
  · rw [raw_get_reports_fst env RawDataReport.report_names [] [] fd td tz hd,
      raw_get_reports_fst env RawDataReport.report_names exclR [] fd td tz hd,
      raw_get_reports_snd env RawDataReport.report_names [] [] fd td tz,
      raw_get_reports_snd env RawDataReport.report_names exclR [] fd td tz]
    simp only [ok_entries, List.isEmpty_nil, ite_true]
    rw [group_entries_filter env fd td tz RawDataReport.report_names exclR]
    by_cases hE : exclR.isEmpty
    · have h0 : exclR = [] := by
        cases exclR with
        | nil => rfl
        | cons a l => simp [List.isEmpty] at hE
      subst h0
      simp [do_reports_exclusion]
    · simp [hE, do_reports_exclusion]
  · rw [tvr_get_reports_fst env
      TargetingValidationRulesReport.report_names [] fd td tz hd,
      tvr_get_reports_fst env
      TargetingValidationRulesReport.report_names exclT fd td tz hd,
      tvr_get_reports_snd env
      TargetingValidationRulesReport.report_names [] fd td tz,
      tvr_get_reports_snd env
      TargetingValidationRulesReport.report_names exclT fd td tz]
    simp only [ok_entries, List.isEmpty_nil, ite_true]
    rw [entries_filter TargetingValidationRulesReport.report_names exclT
      (fun n => TargetingValidationRulesReport.build_request env fd td tz n) (fun n => rfl)]
    by_cases hE : exclT.isEmpty
    · have h0 : exclT = [] := by
        cases exclT with
        | nil => rfl
        | cons a l => simp [List.isEmpty] at hE
      subst h0
      simp [do_reports_exclusion]
    · simp [hE, do_reports_exclusion]

/-- Witness for C3 (amended) with one concrete excluded name per family. -/
theorem c3_exclusion_filters_entries_witness :
    ((Option.isSome (none : Option Nat) = Option.isSome (none : Option Nat)) ∧
     (∀ x ∈ ["daily_report"], x ∈ PerformanceReport.report_names) ∧
     (∀ x ∈ ["installs_report"], x ∈ RawDataReport.report_names) ∧
     (∀ x ∈ ["invalid_installs_report"], x ∈ TargetingValidationRulesReport.report_names)) ∧
    ((PerformanceReport.get_reports env0 PerformanceReport.report_names ["daily_report"]
        none none DEFAULT_TIMEZONE).1
       = .ok ((ok_entries (PerformanceReport.get_reports env0
           PerformanceReport.report_names [] none none DEFAULT_TIMEZONE).1).filter
           (fun e => ¬ e.2.reportName ∈ ["daily_report"])) ∧
     (RawDataReport.get_reports env0 RawDataReport.report_names ["installs_report"] []
        none none DEFAULT_TIMEZONE).1
       = .ok ((ok_entries (RawDataReport.get_reports env0 RawDataReport.report_names
           [] [] none none DEFAULT_TIMEZONE).1).filter
           (fun e => ¬ e.2.reportName ∈ ["installs_report"])) ∧
     (TargetingValidationRulesReport.get_reports env0
        TargetingValidationRulesReport.report_names ["invalid_installs_report"]
        none none DEFAULT_TIMEZONE).1
       = .ok ((ok_entries (TargetingValidationRulesReport.get_reports env0
           TargetingValidationRulesReport.report_names [] none none DEFAULT_TIMEZONE).1).filter
           (fun e => ¬ e.2.reportName ∈ ["invalid_installs_report"]))) :=
  ⟨⟨rfl, by decide, by decide, by decide⟩,
   c3_exclusion_filters_entries env0 none none DEFAULT_TIMEZONE
     ["daily_report"] ["installs_report"] ["invalid_installs_report"]
     rfl (by decide) (by decide) (by decide)⟩

/-- Claim C5: in every `RawDataReport.get_reports` result, the entry
generated for a report name in `special_report_names` (that is,
`uninstall_events_report`) carries `additional_fields` equal to the
comma-join of `additional_fields_uninstall_query`, whereas every entry
generated for a name outside `special_report_names` carries the
comma-join of the full `additional_fields` list. -/
theorem c5_uninstall_additional_fields (env : Env)
    (names excl exclRt : List String) (fd td : Option Nat) (tz : String)
    (e : String × Request)
    (hd : fd.isSome = td.isSome)
    (he : e ∈ ok_entries (RawDataReport.get_reports env names excl exclRt fd td tz).1) :
    (e.2.reportName ∈ RawDataReport.special_report_names →
      e.2.requestArgs.lookup "additional_fields"
        = some (Val.str (String.intercalate ","
            RawDataReport.additional_fields_uninstall_query))) ∧
    (¬ e.2.reportName ∈ RawDataReport.special_report_names →
      e.2.requestArgs.lookup "additional_fields"
        = some (Val.str (String.intercalate "," RawDataReport.additional_fields))) := by
  rw [raw_get_reports_fst env names excl exclRt fd td tz hd] at he
  simp only [ok_entries] at he
  rw [List.mem_flatMap] at he
  obtain ⟨m, hm, hme⟩ := he
  by_cases hr : m ∈ RawDataReport.report_with_retargeting
  · have hms : ¬ m ∈ RawDataReport.special_report_names := by
      simp [RawDataReport.report_with_retargeting] at hr
      rcases hr with rfl | rfl <;> decide
    simp [RawDataReport.group_entries, hr] at hme
    rcases hme with hme | hme <;> subst hme <;>
      exact ⟨fun hs => absurd hs hms, fun _ => rfl⟩
  · by_cases hs : m ∈ RawDataReport.special_report_names
    · simp [RawDataReport.group_entries, hr, hs] at hme
      subst hme
      exact ⟨fun _ => rfl, fun hns => absurd hs hns⟩
    · simp [RawDataReport.group_entries, hr, hs] at hme
      subst hme
      exact ⟨fun hsp => absurd hsp hs, fun _ => rfl⟩

/-- Witness for C5: the uninstall entry of the concrete no-exclusion
`RawDataReport.get_reports` call. -/
theorem c5_uninstall_additional_fields_witness :
    ((Option.isSome (none : Option Nat) = Option.isSome (none : Option Nat)) ∧
     ("uninstall_events_report",
       RawDataReport.build_request env0 none none DEFAULT_TIMEZONE
         "uninstall_events_report" false true)
       ∈ ok_entries (RawDataReport.get_reports env0 RawDataReport.report_names [] []
           none none DEFAULT_TIMEZONE).1) ∧
    ((("uninstall_events_report",
        RawDataReport.build_request env0 none none DEFAULT_TIMEZONE
          "uninstall_events_report" false true).2.reportName
        ∈ RawDataReport.special_report_names →
      ("uninstall_events_report",
        RawDataReport.build_request env0 none none DEFAULT_TIMEZONE
          "uninstall_events_report" false true).2.requestArgs.lookup "additional_fields"
        = some (Val.str (String.intercalate ","
            RawDataReport.additional_fields_uninstall_query))) ∧
     (¬ ("uninstall_events_report",
        RawDataReport.build_request env0 none none DEFAULT_TIMEZONE
          "uninstall_events_report" false true).2.reportName
        ∈ RawDataReport.special_report_names →
      ("uninstall_events_report",
        RawDataReport.build_request env0 none none DEFAULT_TIMEZONE
          "uninstall_events_report" false true).2.requestArgs.lookup "additional_fields"
        = some (Val.str (String.intercalate "," RawDataReport.additional_fields)))) :=
  ⟨⟨rfl, by decide⟩,
   c5_uninstall_additional_fields env0 RawDataReport.report_names [] [] none none
     DEFAULT_TIMEZONE
     ("uninstall_events_report",
       RawDataReport.build_request env0 none none DEFAULT_TIMEZONE
         "uninstall_events_report" false true)
     rfl (by decide)⟩

theorem count_flatMap_key_group (l : List String) (x n : String)
    (h : ∀ m ∈ l, (RawDataReport.key_group m).count x = if m = n then 1 else 0) :
    (l.flatMap RawDataReport.key_group).count x = l.count n := by
  induction l with
  | nil => rfl
  | cons m rest ih =>
    rw [List.flatMap_cons, List.count_append, h m (by simp),
      ih (fun k hk => h k (by simp [hk])), List.count_cons]
    by_cases hm : m = n
    · subst hm
      simp [Nat.add_comm]
    · have hnm : ¬ n = m := fun hh => hm hh.symm
      simp [hm, hnm]

theorem RawDataReport.names_after_exclusion_mem (env : Env) (excl : List String)
    (x : String) (fd td : Option Nat) (tz : String)
    (hx1 : x ∈ RawDataReport.report_names) (hx2 : ¬ x ∈ excl) :
    x ∈ (RawDataReport.get_reports env RawDataReport.report_names excl [] fd td tz).2 := by
  rw [raw_get_reports_snd]
  simp only [List.isEmpty_nil, ite_true]
  by_cases hE : excl.isEmpty
  · simp [hE, hx1]
  · simp [hE, do_reports_exclusion, List.mem_filter, hx1, hx2]

theorem RawDataReport.names_after_exclusion_subset (env : Env) (excl : List String)
    (x : String) (fd td : Option Nat) (tz : String)
    (hx : x ∈ (RawDataReport.get_reports env RawDataReport.report_names excl [] fd td tz).2) :
    x ∈ RawDataReport.report_names := by
  rw [raw_get_reports_snd] at hx
  simp only [List.isEmpty_nil, ite_true] at hx
  by_cases hE : excl.isEmpty
  · simpa [hE] using hx
  · simp [hE, do_reports_exclusion, List.mem_filter] at hx
    exact hx.1

theorem RawDataReport.names_after_exclusion_count (env : Env) (excl : List String)
    (x : String) (fd td : Option Nat) (tz : String) (hx : ¬ x ∈ excl) :
    ((RawDataReport.get_reports env RawDataReport.report_names excl [] fd td tz).2).count x
      = RawDataReport.report_names.count x := by
  rw [raw_get_reports_snd]
  simp only [List.isEmpty_nil, ite_true]
  by_cases hE : excl.isEmpty
  · simp [hE]
  · simp only [hE, Bool.false_eq_true, if_false]
    exact List.count_filter (by simp [hx])

/-- Claim C4: for every report name in `report_with_retargeting` that is
not excluded, `RawDataReport.get_reports` produces exactly two adjacent
result entries: one keyed by the name itself from a request without the
retargeting flag, and one keyed by the name suffixed with `_retargeting`
from a request whose parameters additionally contain the entry
`"reattr": "true"`; each of the two keys occurs exactly once in the
result. -/
theorem c4_retargeting_pair (env : Env) (fd td : Option Nat) (tz : String)
    (excl : List String) (n : String)
    (hd : fd.isSome = td.isSome)
    (hn : n ∈ RawDataReport.report_with_retargeting)
    (hx : ¬ n ∈ excl) :
    (RawDataReport.get_reports env RawDataReport.report_names excl [] fd td tz).1
      = .ok (ok_entries (RawDataReport.get_reports env RawDataReport.report_names
          excl [] fd td tz).1) ∧
    [(n, RawDataReport.build_request env fd td tz n false false),
     (n ++ "_retargeting", RawDataReport.build_request env fd td tz n true false)]
      <:+: ok_entries (RawDataReport.get_reports env RawDataReport.report_names
          excl [] fd td tz).1 ∧
    (RawDataReport.build_request env fd td tz n true false).requestArgs
      = (RawDataReport.build_request env fd td tz n false false).requestArgs
          ++ [("reattr", Val.str "true")] ∧
    ¬ "reattr" ∈ ((RawDataReport.build_request env fd td tz n false false).requestArgs.map
        Prod.fst) ∧
    ((ok_entries (RawDataReport.get_reports env RawDataReport.report_names
        excl [] fd td tz).1).map Prod.fst).count n = 1 ∧
    ((ok_entries (RawDataReport.get_reports env RawDataReport.report_names
        excl [] fd td tz).1).map Prod.fst).count (n ++ "_retargeting") = 1 := by
  have hfst := raw_get_reports_fst env RawDataReport.report_names excl [] fd td tz hd
  have hn2 : n = "installs_report" ∨ n = "in_app_events_report" := by
    simpa [RawDataReport.report_with_retargeting] using hn
  have hdecl : n ∈ RawDataReport.report_names := by
    rcases hn2 with rfl | rfl <;> decide
  have hcnt1 : ∀ m ∈ (RawDataReport.get_reports env RawDataReport.report_names
      excl [] fd td tz).2, (RawDataReport.key_group m).count n = if m = n then 1 else 0 := by
    intro m hm
    have hmd2 : m = "installs_report" ∨ m = "in_app_events_report" ∨
        m = "organic_installs_report" ∨ m = "organic_in_app_events_report" ∨
        m = "uninstall_events_report" := by
      simpa [RawDataReport.report_names, RawDataReport.special_report_names]
        using RawDataReport.names_after_exclusion_subset env excl m fd td tz hm
    rcases hmd2 with rfl | rfl | rfl | rfl | rfl <;> rcases hn2 with rfl | rfl <;> decide
  have hcnt2 : ∀ m ∈ (RawDataReport.get_reports env RawDataReport.report_names
      excl [] fd td tz).2,
      (RawDataReport.key_group m).count (n ++ "_retargeting") = if m = n then 1 else 0 := by
    intro m hm
    have hmd2 : m = "installs_report" ∨ m = "in_app_events_report" ∨
        m = "organic_installs_report" ∨ m = "organic_in_app_events_report" ∨
        m = "uninstall_events_report" := by
      simpa [RawDataReport.report_names, RawDataReport.special_report_names]
        using RawDataReport.names_after_exclusion_subset env excl m fd td tz hm
    rcases hmd2 with rfl | rfl | rfl | rfl | rfl <;> rcases hn2 with rfl | rfl <;> decide
  have hNc : ((RawDataReport.get_reports env RawDataReport.report_names
      excl [] fd td tz).2).count n = 1 := by
    rw [RawDataReport.names_after_exclusion_count env excl n fd td tz hx]
    rcases hn2 with rfl | rfl <;> decide
  have hgroup : RawDataReport.group_entries env fd td tz n
      = [(n, RawDataReport.build_request env fd td tz n false false),
         (n ++ "_retargeting", RawDataReport.build_request env fd td tz n true false)] := by
    rcases hn2 with rfl | rfl <;> rfl
  refine ⟨by rw [hfst]; rfl, ?_, rfl, ?_, ?_, ?_⟩
  · rw [hfst]
    simp only [ok_entries]
    obtain ⟨s, t, hst⟩ := List.append_of_mem
      (RawDataReport.names_after_exclusion_mem env excl n fd td tz hdecl hx)
    rw [hst, List.flatMap_append, List.flatMap_cons, hgroup]
    exact ⟨s.flatMap (RawDataReport.group_entries env fd td tz),
           t.flatMap (RawDataReport.group_entries env fd td tz), by
      rw [List.append_assoc]⟩
  · intro hmem
    rw [show ((RawDataReport.build_request env fd td tz n false false).requestArgs.map
        Prod.fst) = ["from", "to", "timezone", "additional_fields"] from rfl] at hmem
    revert hmem
    decide
  · rw [hfst]
    simp only [ok_entries]
    rw [flatMap_map_fst, count_flatMap_key_group _ n n hcnt1]
    exact hNc
  · rw [hfst]
    simp only [ok_entries]
    rw [flatMap_map_fst, count_flatMap_key_group _ (n ++ "_retargeting") n hcnt2]
    exact hNc

/-- Witness for C4: the `installs_report` pair of the concrete
no-exclusion `RawDataReport.get_reports` call. -/
theorem c4_retargeting_pair_witness :
    ((Option.isSome (none : Option Nat) = Option.isSome (none : Option Nat)) ∧
     "installs_report" ∈ RawDataReport.report_with_retargeting ∧
     ¬ "installs_report" ∈ ([] : List String)) ∧
    ((RawDataReport.get_reports env0 RawDataReport.report_names [] [] none none
        DEFAULT_TIMEZONE).1
       = .ok (ok_entries (RawDataReport.get_reports env0 RawDataReport.report_names
           [] [] none none DEFAULT_TIMEZONE).1) ∧
     [("installs_report",
        RawDataReport.build_request env0 none none DEFAULT_TIMEZONE
          "installs_report" false false),
      ("installs_report" ++ "_retargeting",
        RawDataReport.build_request env0 none none DEFAULT_TIMEZONE
          "installs_report" true false)]
       <:+: ok_entries (RawDataReport.get_reports env0 RawDataReport.report_names
           [] [] none none DEFAULT_TIMEZONE).1 ∧
     (RawDataReport.build_request env0 none none DEFAULT_TIMEZONE
        "installs_report" true false).requestArgs
       = (RawDataReport.build_request env0 none none DEFAULT_TIMEZONE
           "installs_report" false false).requestArgs ++ [("reattr", Val.str "true")] ∧
     ¬ "reattr" ∈ ((RawDataReport.build_request env0 none none DEFAULT_TIMEZONE
         "installs_report" false false).requestArgs.map Prod.fst) ∧
     ((ok_entries (RawDataReport.get_reports env0 RawDataReport.report_names
         [] [] none none DEFAULT_TIMEZONE).1).map Prod.fst).count "installs_report" = 1 ∧
     ((ok_entries (RawDataReport.get_reports env0 RawDataReport.report_names
         [] [] none none DEFAULT_TIMEZONE).1).map Prod.fst).count
         ("installs_report" ++ "_retargeting") = 1) :=
  ⟨⟨rfl, by decide, by decide⟩,
   c4_retargeting_pair env0 none none DEFAULT_TIMEZONE [] "installs_report"
     rfl (by decide) (by decide)⟩
